import Mathlib

/-!
Shallow embedding of `src/sso_pipeline.py` (function
`merge_sso_with_collection_system`): key normalization, coordinate sign
correction, left join of overflow events with collection-system permits,
and the per-permit/year groupby summary.

Tables are lists of rows; a cell is either a string, a number (modelled
by `ℚ`), or null (pandas `NaN`).  Library calls (`pd.to_numeric`,
`pd.to_datetime`, `astype(str).str.strip().str.upper()`) are modelled by
executable Lean functions with the same observable behaviour on the
values the pipeline handles.
-/

namespace SsoPipeline

/-- A table cell: null (`NaN`), a string, or a numeric value. -/
inductive Cell where
  | null : Cell
  | str : String → Cell
  | num : ℚ → Cell
deriving DecidableEq, Repr

/-- Is a cell non-null?  (`pandas` drops `NaN` in `nunique`.) -/
def nonNull : Cell → Bool
  | Cell.null => false
  | _ => true

/-- Python whitespace test used by `str.strip()`. -/
def isWS (c : Char) : Bool :=
  c = ' ' || c = '\t' || c = '\n' || c = '\r'

/-- `str.strip()` on a character list: drop whitespace at both ends. -/
def stripChars (cs : List Char) : List Char :=
  ((cs.dropWhile isWS).reverse.dropWhile isWS).reverse

/-- Python `str.strip()`. -/
def pyStrip (s : String) : String :=
  ⟨stripChars s.data⟩

/-- Python `str.upper()` (ASCII, which covers the identifiers here). -/
def pyUpper (s : String) : String :=
  ⟨s.data.map Char.toUpper⟩

/-- Python `str(...)` on a cell, as used by `astype(str)`:
a null prints as the literal text `"nan"`. -/
def cellToStr : Cell → String
  | Cell.null => "nan"
  | Cell.str s => s
  | Cell.num q => toString q

/-- The normalized join key built at lines 115–126 of the source:
`astype(str).str.strip().str.upper()`. -/
def normKey (c : Cell) : String :=
  pyUpper (pyStrip (cellToStr c))

/-- Decimal digit value of a character, if it is a digit. -/
def digitVal (c : Char) : Option Nat :=
  if c.isDigit then some (c.toNat - 48) else none

/-- Parse a non-empty all-digit character list as a natural number. -/
def digitsToNat (cs : List Char) : Option Nat :=
  if cs.isEmpty then none
  else
    cs.foldl
      (fun acc c =>
        match acc, digitVal c with
        | some n, some d => some (n * 10 + d)
        | _, _ => none)
      (some 0)

/-- Split a character list on a separator character. -/
def splitOnChar (sep : Char) : List Char → List (List Char)
  | [] => [[]]
  | c :: cs =>
    let r := splitOnChar sep cs
    if c = sep then [] :: r
    else
      match r with
      | [] => [[c]]
      | g :: gs => (c :: g) :: gs

/-- Parse an unsigned decimal numeral (`"41"` or `"41.5"`) as a rational. -/
def parseUnsignedRat (cs : List Char) : Option ℚ :=
  match splitOnChar '.' cs with
  | [w] => (digitsToNat w).map (fun n => (n : ℚ))
  | [w, f] =>
    match digitsToNat w, digitsToNat f with
    | some n, some m => some ((n : ℚ) + (m : ℚ) / (10 : ℚ) ^ f.length)
    | _, _ => none
  | _ => none

/-- Model of `pd.to_numeric(col, errors="coerce")` on one cell:
numbers pass through, numeric text parses, anything else becomes null. -/
def toNumeric : Cell → Option ℚ
  | Cell.null => none
  | Cell.num q => some q
  | Cell.str s =>
    match s.data with
    | '-' :: rest => (parseUnsignedRat rest).map (fun q => -q)
    | cs => parseUnsignedRat cs

/-- A parsed timestamp, to calendar-day precision (all the pipeline
uses of the timestamp — `dt.year`, `min`, `max` — are covered). -/
structure DT where
  year : Int
  month : Nat
  day : Nat
deriving DecidableEq, Repr

/-- Model of `pd.to_datetime(col, errors="coerce")` on one cell:
an ISO `"YYYY-MM-DD"` string parses, anything else becomes null. -/
def parseDT : Cell → Option DT
  | Cell.str s =>
    match splitOnChar '-' s.data with
    | [ys, ms, ds] =>
      match digitsToNat ys, digitsToNat ms, digitsToNat ds with
      | some y, some m, some d =>
        if 1 ≤ m ∧ m ≤ 12 ∧ 1 ≤ d ∧ d ≤ 31 then some ⟨(y : Int), m, d⟩
        else none
      | _, _, _ => none
    | _ => none
  | _ => none

/-- Timestamp comparison (year, then month, then day). -/
def DT.leb (a b : DT) : Bool :=
  if a.year < b.year then true
  else if b.year < a.year then false
  else if a.month < b.month then true
  else if b.month < a.month then false
  else decide (a.day ≤ b.day)

/-- Minimum of a list of timestamps (`none` on the empty list, the way
a pandas `min` of an all-null group is `NaT`). -/
def dtMin : List DT → Option DT
  | [] => none
  | d :: ds => some (ds.foldl (fun a b => if DT.leb b a then b else a) d)

/-- Maximum of a list of timestamps (`none` on the empty list). -/
def dtMax : List DT → Option DT
  | [] => none
  | d :: ds => some (ds.foldl (fun a b => if DT.leb a b then b else a) d)

/-- One row of `collection_system_permit`. -/
structure PermitRow where
  permit_identifier : Cell
  collection_system_identifier : Cell
  collection_system_name : Cell
  collection_system_owner_type_desc : Cell
  collection_system_population : Cell
deriving DecidableEq, Repr

/-- The permit table; the flags record whether the two identifier
columns are present (direct indexing on a missing column raises). -/
structure CollTable where
  hasPermitId : Bool
  hasCsId : Bool
  rows : List PermitRow
deriving DecidableEq, Repr

/-- One row of `sewer_overflow_bypass_event`. -/
structure SsoRow where
  permit_identifier : Cell
  collection_system_identifier : Cell
  sewer_overflow_bypass_event_key : Cell
  sewer_overflow_bypass_start_datetime : Cell
  sewer_overflow_bypass_end_datetime : Cell
  sewer_overflow_bypass_discharge_volume_gallons : Cell
  latitude_measure : Cell
  longitude_measure : Cell
deriving DecidableEq, Repr

/-- The events table; `hasLat`/`hasLon` record whether the coordinate
columns are present (the source reads them with `df.get`, which yields
`None` — hence an all-null column — when absent). -/
structure SsoTable where
  hasPermitId : Bool
  hasCsId : Bool
  hasLat : Bool
  hasLon : Bool
  rows : List SsoRow
deriving DecidableEq, Repr

/-- Normalized key pair (`_permit_join`, `_cs_join`) of a permit row. -/
def permitKeyPair (p : PermitRow) : String × String :=
  (normKey p.permit_identifier, normKey p.collection_system_identifier)

/-- Normalized key pair (`_permit_join`, `_cs_join`) of an event row. -/
def eventKeyPair (r : SsoRow) : String × String :=
  (normKey r.permit_identifier, normKey r.collection_system_identifier)

/-- Parsed latitude of an event row: `pd.to_numeric(df_sso.get("latitude_measure"),
errors="coerce")` — null for every row when the column is absent. -/
def parsedLat (E : SsoTable) (r : SsoRow) : Option ℚ :=
  if E.hasLat then toNumeric r.latitude_measure else none

/-- Parsed longitude of an event row (see `parsedLat`). -/
def parsedLon (E : SsoTable) (r : SsoRow) : Option ℚ :=
  if E.hasLon then toNumeric r.longitude_measure else none

/-- Rule A (source lines 139–143): rows with negative latitude get both
coordinates negated (`mask_both = lat < 0`; a null compares false). -/
def ruleA (lat lon : Option ℚ) : Option ℚ × Option ℚ :=
  match lat with
  | some a => if a < 0 then (some (-a), lon.map (fun b => -b)) else (lat, lon)
  | none => (lat, lon)

/-- Rule B (source lines 145–153), applied to the post-Rule-A columns:
rows with `lat ≥ 0` and `lon` in `[60, 110]` get the longitude negated
(`lat.ge(0) & lon.between(60, 110)`; a null compares false). -/
def ruleB (lat lon : Option ℚ) : Option ℚ :=
  match lat, lon with
  | some a, some b => if 0 ≤ a ∧ 60 ≤ b ∧ b ≤ 110 then some (-b) else some b
  | _, _ => lon

/-- The full coordinate correction: Rule A, then Rule B on the
already-Rule-A-corrected values. -/
def correctCoords (lat lon : Option ℚ) : Option ℚ × Option ℚ :=
  let p := ruleA lat lon
  (p.1, ruleB p.1 p.2)

/-- An event row after the in-place numeric conversion and coordinate
correction of its `latitude_measure` / `longitude_measure` columns. -/
structure CorrRow where
  row : SsoRow
  lat : Option ℚ
  lon : Option ℚ
deriving DecidableEq, Repr

/-- The events table after coordinate parsing and correction
(source lines 132–153); all other columns are untouched. -/
def correctedEvents (E : SsoTable) : List CorrRow :=
  E.rows.map (fun r =>
    let p := correctCoords (parsedLat E r) (parsedLon E r)
    ⟨r, p.1, p.2⟩)

/-- One row of the merged table `sso_events_with_collection_system`:
the (corrected) event row, plus the matching permit row when one
exists (`how="left"` keeps unmatched events with nulls on the permit
side). -/
structure MergedRow where
  corr : CorrRow
  permit : Option PermitRow
deriving DecidableEq, Repr

/-- The left outer join of source lines 156–161: each event row is
paired with every permit row sharing its normalized key pair, or kept
once with a null permit side when no permit matches. -/
def leftJoin (ps : List PermitRow) (es : List CorrRow) : List MergedRow :=
  es.flatMap (fun e =>
    let ms := ps.filter (fun p => decide (permitKeyPair p = eventKeyPair e.row))
    match ms with
    | [] => [⟨e, none⟩]
    | _ => ms.map (fun p => ⟨e, some p⟩))

/-- A permit-side cell of a merged row: null when the event had no
matching permit. -/
def permitCell (m : MergedRow) (f : PermitRow → Cell) : Cell :=
  match m.permit with
  | some p => f p
  | none => Cell.null

/-- The six-column grouping key of source lines 189–196: event-side
permit and collection-system identifiers, permit-side name, owner type
and population, and the year of the parsed start timestamp. -/
abbrev GroupKey := Cell × Cell × Cell × Cell × Cell × Option Int

instance : DecidableEq GroupKey :=
  fun a b => inferInstanceAs (Decidable (a = b))

/-- Grouping key of one merged row (`year` is null when the start
datetime fails to parse). -/
def keyOf (m : MergedRow) : GroupKey :=
  (m.corr.row.permit_identifier,
   m.corr.row.collection_system_identifier,
   permitCell m (fun p => p.collection_system_name),
   permitCell m (fun p => p.collection_system_owner_type_desc),
   permitCell m (fun p => p.collection_system_population),
   (parseDT m.corr.row.sewer_overflow_bypass_start_datetime).map (fun d => d.year))

/-- The distinct grouping keys of a merged table (`groupby(...,
dropna=False)` keeps null-valued keys as ordinary group values). -/
def groupKeys (rows : List MergedRow) : List GroupKey :=
  (rows.map keyOf).dedup

/-- The rows of one group. -/
def groupRows (rows : List MergedRow) (k : GroupKey) : List MergedRow :=
  rows.filter (fun m => decide (keyOf m = k))

/-- `nunique` of the event keys of a group: the number of distinct
non-null `sewer_overflow_bypass_event_key` values. -/
def evCount (g : List MergedRow) : Nat :=
  (((g.map (fun m => m.corr.row.sewer_overflow_bypass_event_key)).filter
      nonNull).dedup).length

/-- Null-skipping `sum` of the parsed discharge volumes of a group. -/
def sumVol (g : List MergedRow) : ℚ :=
  (g.filterMap (fun m =>
      toNumeric m.corr.row.sewer_overflow_bypass_discharge_volume_gallons)).sum

/-- One row of `sso_summary_by_permit_year`. -/
structure SummaryRow where
  permit_identifier : Cell
  collection_system_identifier : Cell
  collection_system_name : Cell
  collection_system_owner_type_desc : Cell
  collection_system_population : Cell
  year : Option Int
  sso_event_count : Nat
  sso_total_volume_gal : ℚ
  sso_first_event : Option DT
  sso_last_event : Option DT
deriving DecidableEq, Repr

/-- The aggregates of source lines 198–207 for one group. -/
def mkSummary (k : GroupKey) (g : List MergedRow) : SummaryRow :=
  { permit_identifier := k.1
    collection_system_identifier := k.2.1
    collection_system_name := k.2.2.1
    collection_system_owner_type_desc := k.2.2.2.1
    collection_system_population := k.2.2.2.2.1
    year := k.2.2.2.2.2
    sso_event_count := evCount g
    sso_total_volume_gal := sumVol g
    sso_first_event :=
      dtMin (g.filterMap (fun m =>
        parseDT m.corr.row.sewer_overflow_bypass_start_datetime))
    sso_last_event :=
      dtMax (g.filterMap (fun m =>
        parseDT m.corr.row.sewer_overflow_bypass_end_datetime)) }

/-- The groupby-aggregate of source lines 198–207: one summary row per
distinct grouping key. -/
def summarize (rows : List MergedRow) : List SummaryRow :=
  (groupKeys rows).map (fun k => mkSummary k (groupRows rows k))

/-- The four output tables of `merge_sso_with_collection_system`. -/
structure Outputs where
  collection_system_permit_raw : CollTable
  sewer_overflow_bypass_event_raw : SsoTable
  sso_events_with_collection_system : List MergedRow
  sso_summary_by_permit_year : List SummaryRow
deriving DecidableEq, Repr

/-- The body of `merge_sso_with_collection_system` once the identifier
columns are known to exist: raw copies are taken before any mutation
(lines 111–112), the events are corrected, joined, and summarized. -/
def buildOutputs (P : CollTable) (E : SsoTable) : Outputs :=
  let merged := leftJoin P.rows (correctedEvents E)
  { collection_system_permit_raw := P
    sewer_overflow_bypass_event_raw := E
    sso_events_with_collection_system := merged
    sso_summary_by_permit_year := summarize merged }

/-- `merge_sso_with_collection_system`: direct indexing of the two
identifier columns (lines 115–126) raises a `KeyError` when either is
absent from either table; otherwise the pipeline body runs. -/
def merge_sso_with_collection_system (P : CollTable) (E : SsoTable) :
    Except String Outputs :=
  if P.hasPermitId && E.hasPermitId && P.hasCsId && E.hasCsId then
    Except.ok (buildOutputs P E)
  else
    Except.error "KeyError: missing identifier column"

end SsoPipeline

namespace SsoPipeline

/-- Reference coordinate correction written from the spec's words (for
comparison with the code's `correctCoords`): a row with a null parsed
latitude or longitude is touched by no rule; otherwise Rule A fires on
negative latitude, then Rule B is evaluated on the Rule-A-corrected
values. -/
def specCoordFix (lat lon : Option ℚ) : Option ℚ × Option ℚ :=
  match lat, lon with
  | some a, some b =>
    let a1 := if a < 0 then -a else a
    let b1 := if a < 0 then -b else b
    let b2 := if 0 ≤ a1 ∧ 60 ≤ b1 ∧ b1 ≤ 110 then -b1 else b1
    (some a1, some b2)
  | _, _ => (lat, lon)

/-- An event row whose latitude is numeric text `"-41"` but whose
longitude is unparsable text. -/
def eBadLon : SsoRow :=
  ⟨Cell.str "P1", Cell.str "C1", Cell.str "E1", Cell.null, Cell.null,
   Cell.null, Cell.str "-41", Cell.str "junk"⟩

/-- A one-row events table around `eBadLon`. -/
def eBadLonTable : SsoTable := ⟨true, true, true, true, [eBadLon]⟩

end SsoPipeline

namespace SsoPipeline

/-- C2 (counterexample): on a row whose latitude parses to `-41` but
whose longitude is unparsable (null), the code's correction negates the
latitude (Rule A fires on `lat < 0` alone), while the claim's reference
definition leaves the row untouched — so the two differ. -/
theorem coord_correction_counterexample :
    (correctedEvents eBadLonTable).map (fun c => (c.lat, c.lon))
        = [(some 41, none)] ∧
    specCoordFix (toNumeric eBadLon.latitude_measure)
        (toNumeric eBadLon.longitude_measure) = (some (-41), none) ∧
    correctCoords (toNumeric eBadLon.latitude_measure)
        (toNumeric eBadLon.longitude_measure)
      ≠ specCoordFix (toNumeric eBadLon.latitude_measure)
          (toNumeric eBadLon.longitude_measure) := by
  refine ⟨by decide, by decide, by decide⟩

end SsoPipeline

namespace SsoPipeline

/-- C2 (amended): for every row of the events table, the corrected
coordinate pair is obtained by applying `correctCoords` to the parsed
values, and `correctCoords` agrees with the spec's reference definition
on every row whose latitude AND longitude both parse to numbers; a row
whose latitude fails to parse is touched by no rule, but — unlike the
claim's parenthetical — a row with a negative parsed latitude and a
null longitude still has its latitude negated by Rule A (the null
longitude stays null), and a row with a non-negative parsed latitude
and null longitude is unchanged. -/
theorem coord_correction_amended (E : SsoTable) (r : SsoRow) (a b c : ℚ)
    (lo : Option ℚ) (hr : r ∈ E.rows) (hc : c < 0) :
    (⟨r, (correctCoords (parsedLat E r) (parsedLon E r)).1,
        (correctCoords (parsedLat E r) (parsedLon E r)).2⟩ : CorrRow)
      ∈ correctedEvents E ∧
    correctCoords (some a) (some b) = specCoordFix (some a) (some b) ∧
    correctCoords none lo = (none, lo) ∧
    correctCoords (some c) none = (some (-c), none) ∧
    (0 ≤ a → correctCoords (some a) none = (some a, none)) := by
  refine ⟨List.mem_map_of_mem _ hr, ?_, rfl, ?_, ?_⟩
  · by_cases h : a < 0 <;>
      simp [correctCoords, ruleA, ruleB, specCoordFix, h] <;>
      split_ifs <;> rfl
  · simp [correctCoords, ruleA, ruleB, hc]
  · intro ha
    simp [correctCoords, ruleA, ruleB, not_lt.mpr ha]

/-- Witness for `coord_correction_amended` at a concrete table and
concrete coordinates. -/
theorem coord_correction_amended_witness :
    (⟨eBadLon, (correctCoords (parsedLat eBadLonTable eBadLon)
          (parsedLon eBadLonTable eBadLon)).1,
        (correctCoords (parsedLat eBadLonTable eBadLon)
          (parsedLon eBadLonTable eBadLon)).2⟩ : CorrRow)
      ∈ correctedEvents eBadLonTable ∧
    correctCoords (some 40) (some 88) = specCoordFix (some 40) (some 88) ∧
    correctCoords none (some 144) = (none, some 144) ∧
    correctCoords (some (-41)) none = (some (-(-41)), none) ∧
    (0 ≤ (40 : ℚ) → correctCoords (some 40) none = (some 40, none)) :=
  coord_correction_amended eBadLonTable eBadLon 40 88 (-41) (some 144)
    (by decide) (by norm_num)

end SsoPipeline

namespace SsoPipeline

/-- C4: the two raw outputs are identical to the corresponding inputs —
the copies are taken (source lines 111–112) before the key-normalization
columns are added and before the coordinate columns are coerced and
corrected, and the later `drop(columns=..., errors="ignore")` on them
removes nothing; in particular the raw events table still carries the
coordinates exactly as supplied. -/
theorem raw_passthrough (P : CollTable) (E : SsoTable) :
    (buildOutputs P E).collection_system_permit_raw = P ∧
    (buildOutputs P E).sewer_overflow_bypass_event_raw = E ∧
    (buildOutputs P E).sewer_overflow_bypass_event_raw.rows.map
        (fun r => r.latitude_measure) = E.rows.map (fun r => r.latitude_measure) :=
  ⟨rfl, rfl, rfl⟩

/-- C5: every parsing step is total and null-coercing — the coordinate
correction step keeps the event-table row count unchanged, a null
parsed coordinate is never altered by either correction rule, and
unparsable or missing cells come out of the numeric and datetime
parsers as null rather than as an error. -/
theorem cell_coercion_total (E : SsoTable) (la lo : Option ℚ) :
    (correctedEvents E).length = E.rows.length ∧
    (correctCoords none lo).1 = none ∧
    (correctCoords la none).2 = none ∧
    toNumeric (Cell.str "12,500 gal") = none ∧
    toNumeric Cell.null = none ∧
    parseDT (Cell.str "not a date") = none ∧
    parseDT Cell.null = none := by
  refine ⟨List.length_map _ _, rfl, ?_, by decide, rfl, by decide, rfl⟩
  match la with
  | none => rfl
  | some a => by_cases h : a < 0 <;> simp [correctCoords, ruleA, ruleB, h]

/-- C9: the pipeline is a pure function of its two input tables, so
running it twice on unchanged inputs yields identical raw, merged and
summary outputs. -/
theorem pipeline_deterministic (P : CollTable) (E : SsoTable) :
    merge_sso_with_collection_system P E = merge_sso_with_collection_system P E ∧
    buildOutputs P E = buildOutputs P E ∧
    summarize (leftJoin P.rows (correctedEvents E))
      = summarize (leftJoin P.rows (correctedEvents E)) :=
  ⟨rfl, rfl, rfl⟩

end SsoPipeline

namespace SsoPipeline

/-- A permit row with a clean upper-case identifier pair. -/
def pDemo : PermitRow :=
  ⟨Cell.str "IA0012345", Cell.str "CS1", Cell.str "City", Cell.null,
   Cell.num 1000⟩

/-- An event row whose identifiers differ from `pDemo` only in case and
surrounding whitespace. -/
def eDemo : SsoRow :=
  ⟨Cell.str " ia0012345 ", Cell.str " cs1 ", Cell.str "E9", Cell.null,
   Cell.null, Cell.null, Cell.null, Cell.null⟩

/-- A one-row events table around `eDemo`. -/
def eDemoTable : SsoTable := ⟨true, true, true, true, [eDemo]⟩

/-- C3: the normalized join key of every cell is the uppercased,
whitespace-trimmed string form of the value; a null identifier
normalizes to the literal text `"NAN"`; two string identifiers whose
trimmed uppercase forms agree produce the same key; and concretely an
event with permit id `" ia0012345 "` matches (and is joined to) a
permit with permit id `"IA0012345"`, while a null-identifier event
pairs with a null-identifier permit in the ordinary way. -/
theorem key_normalization (c : Cell) (s t : String)
    (h : pyUpper (pyStrip s) = pyUpper (pyStrip t)) :
    normKey c = pyUpper (pyStrip (cellToStr c)) ∧
    normKey Cell.null = "NAN" ∧
    normKey (Cell.str s) = normKey (Cell.str t) ∧
    eventKeyPair eDemo = permitKeyPair pDemo ∧
    (leftJoin [pDemo] (correctedEvents eDemoTable)).map (fun m => m.permit)
      = [some pDemo] ∧
    normKey (Cell.str "nan") = normKey Cell.null := by
  exact ⟨rfl, by decide, h, by decide, by decide, by decide⟩

/-- Witness for `key_normalization` at the concrete identifier pair of
the spec's example. -/
theorem key_normalization_witness :
    normKey (Cell.str " ia0012345 ")
        = pyUpper (pyStrip (cellToStr (Cell.str " ia0012345 "))) ∧
    normKey Cell.null = "NAN" ∧
    normKey (Cell.str " ia0012345 ") = normKey (Cell.str "IA0012345") ∧
    eventKeyPair eDemo = permitKeyPair pDemo ∧
    (leftJoin [pDemo] (correctedEvents eDemoTable)).map (fun m => m.permit)
      = [some pDemo] ∧
    normKey (Cell.str "nan") = normKey Cell.null :=
  key_normalization (Cell.str " ia0012345 ") " ia0012345 " "IA0012345"
    (by decide)

end SsoPipeline

namespace SsoPipeline

/-- Number of permit rows sharing an event row's normalized key pair. -/
def matchCount (P : CollTable) (e : CorrRow) : Nat :=
  (P.rows.filter (fun p => decide (permitKeyPair p = eventKeyPair e.row))).length

/-- The left join emits, for each event row, one row per matching
permit row, or a single null-permit row when nothing matches. -/
lemma leftJoin_length (ps : List PermitRow) (es : List CorrRow) :
    (leftJoin ps es).length
      = (es.map (fun e =>
          max 1 (ps.filter
            (fun p => decide (permitKeyPair p = eventKeyPair e.row))).length)).sum := by
  rw [leftJoin, List.length_flatMap]
  refine congrArg List.sum (List.map_congr_left ?_)
  intro e _
  simp only [Function.comp]
  cases hms : ps.filter (fun p => decide (permitKeyPair p = eventKeyPair e.row)) with
  | nil => simp [hms]
  | cons x xs =>
    simp [hms, Nat.max_eq_right (Nat.succ_le_succ (Nat.zero_le _))]

/-- If the mapped keys of a list are duplicate-free, filtering the list
by one key value keeps at most one element. -/
lemma filter_eq_key_length_le_one {α β : Type} [DecidableEq β]
    (f : α → β)
    (c : β) : ∀ l : List α, (l.map f).Nodup →
      (l.filter (fun p => decide (f p = c))).length ≤ 1 := by
  intro l
  induction l with
  | nil => intro _; simp
  | cons a t ih =>
    intro hnd
    rw [List.map_cons, List.nodup_cons] at hnd
    by_cases h : f a = c
    · have ht : t.filter (fun p => decide (f p = c)) = [] := by
        rw [List.filter_eq_nil_iff]
        intro b hb hbc
        exact hnd.1 (h ▸ (of_decide_eq_true hbc) ▸ List.mem_map_of_mem f hb)
      simp [List.filter_cons, h, ht]
    · simpa [List.filter_cons, h] using ih hnd.2

/-- Summing the constant 1 over a list counts its length. -/
lemma sum_map_one {α : Type} (l : List α) :
    (l.map (fun _ => (1 : ℕ))).sum = l.length := by
  induction l with
  | nil => rfl
  | cons a t ih => simp [ih, Nat.add_comm]

/-- Two permit rows sharing one normalized key pair. -/
def permitA1 : PermitRow :=
  ⟨Cell.str "A", Cell.str "B", Cell.str "N1", Cell.null, Cell.null⟩

/-- Second permit row with the same key pair as `permitA1`. -/
def permitA2 : PermitRow :=
  ⟨Cell.str "A", Cell.str "B", Cell.str "N2", Cell.null, Cell.null⟩

/-- A permit table whose two rows share one normalized key pair. -/
def pTableDup : CollTable := ⟨true, true, [permitA1, permitA2]⟩

/-- A single event row matching the duplicated permit key. -/
def eventA : SsoRow :=
  ⟨Cell.str "A", Cell.str "B", Cell.str "E1", Cell.null, Cell.null,
   Cell.null, Cell.null, Cell.null⟩

/-- A one-row events table around `eventA`. -/
def eTableOne : SsoTable := ⟨true, true, true, true, [eventA]⟩

/-- C1 (counterexample): with two permit rows sharing the event's
normalized key pair, the left join fans out — the merged table has 2
rows for a 1-row events table, so its row count does not equal the
event row count. -/
theorem join_cardinality_counterexample :
    (buildOutputs pTableDup eTableOne).sso_events_with_collection_system.length
        = 2 ∧
    eTableOne.rows.length = 1 ∧
    (buildOutputs pTableDup eTableOne).sso_events_with_collection_system.length
        ≠ eTableOne.rows.length := by
  refine ⟨by decide, by decide, by decide⟩

/-- C1 (amended): for every pair of input tables the merged table
carries, per event row, exactly max(1, number of matching permit rows)
rows — one null-permit row when nothing matches, one per match
otherwise — so the join never drops an event row and its length is
never below the event count; whenever no two permit rows share a
normalized key pair, the merged length equals the event count exactly
as claimed. -/
theorem join_cardinality_amended (P : CollTable) (E : SsoTable) :
    (buildOutputs P E).sso_events_with_collection_system.length
        = ((correctedEvents E).map (fun e => max 1 (matchCount P e))).sum ∧
    E.rows.length
        ≤ (buildOutputs P E).sso_events_with_collection_system.length ∧
    ((P.rows.map permitKeyPair).Nodup →
      (buildOutputs P E).sso_events_with_collection_system.length
          = E.rows.length) := by
  have hlen : (buildOutputs P E).sso_events_with_collection_system.length
      = ((correctedEvents E).map (fun e => max 1 (matchCount P e))).sum :=
    leftJoin_length P.rows (correctedEvents E)
  refine ⟨hlen, ?_, ?_⟩
  · rw [hlen]
    have hle := List.sum_le_sum (l := correctedEvents E)
      (f := fun _ => (1 : ℕ)) (g := fun e => max 1 (matchCount P e))
      (fun i _ => le_max_left _ _)
    rw [sum_map_one] at hle
    calc E.rows.length = (correctedEvents E).length :=
          (List.length_map _ _).symm
      _ ≤ _ := hle
  · intro h
    rw [hlen]
    have hone : ∀ e ∈ correctedEvents E, max 1 (matchCount P e) = 1 := by
      intro e _
      have hle := filter_eq_key_length_le_one permitKeyPair
        (eventKeyPair e.row) P.rows h
      rw [matchCount]
      omega
    rw [List.map_congr_left hone, sum_map_one, correctedEvents,
      List.length_map]

/-- A one-row permit table with a duplicate-free key list. -/
def pTableOne : CollTable := ⟨true, true, [pDemo]⟩

/-- Witness for `join_cardinality_amended`: the unconditional clauses
hold on the fan-out tables of the counterexample, and with a
duplicate-free permit table the merged table has exactly as many rows
as the events table. -/
theorem join_cardinality_amended_witness :
    (buildOutputs pTableDup eTableOne).sso_events_with_collection_system.length
        = ((correctedEvents eTableOne).map
            (fun e => max 1 (matchCount pTableDup e))).sum ∧
    eTableOne.rows.length
        ≤ (buildOutputs pTableDup eTableOne).sso_events_with_collection_system.length ∧
    (buildOutputs pTableOne eDemoTable).sso_events_with_collection_system.length
        = eDemoTable.rows.length :=
  ⟨(join_cardinality_amended pTableDup eTableOne).1,
   (join_cardinality_amended pTableDup eTableOne).2.1,
   (join_cardinality_amended pTableOne eDemoTable).2.2 (by decide)⟩

end SsoPipeline

namespace SsoPipeline

/-- The group sizes of the six-column grouping add up to the row count
of the merged table: no row is dropped by grouping. -/
lemma groups_cover_length (rows : List MergedRow) :
    ((groupKeys rows).map (fun k => (groupRows rows k).length)).sum
      = rows.length := by
  have h := List.sum_map_count_dedup_eq_length (rows.map keyOf)
  rw [List.length_map] at h
  simp only [List.count_eq_countP] at h
  simp only [List.countP_map] at h
  simp only [List.countP_eq_length_filter] at h
  rw [groupKeys, ← h]
  refine congrArg List.sum (List.map_congr_left ?_)
  intro k hk
  rw [groupRows]
  rfl

/-- C6: the six-column grouping with `dropna=False` partitions the
merged table — the group sizes sum to the row count, the group keys are
pairwise distinct, every row's key is among them, every row lies in the
group of its own key and in no other, and a row whose start datetime
fails to parse carries a null year in its key (falling into a null-year
group rather than being dropped). -/
theorem grouping_partitions (rows : List MergedRow) (m : MergedRow)
    (hm : m ∈ rows) :
    ((groupKeys rows).map (fun k => (groupRows rows k).length)).sum
        = rows.length ∧
    (groupKeys rows).Nodup ∧
    keyOf m ∈ groupKeys rows ∧
    m ∈ groupRows rows (keyOf m) ∧
    (∀ k, k ∈ groupKeys rows → m ∈ groupRows rows k → k = keyOf m) ∧
    (parseDT m.corr.row.sewer_overflow_bypass_start_datetime = none →
      (keyOf m).2.2.2.2.2 = none) := by
  refine ⟨groups_cover_length rows, List.nodup_dedup _, ?_, ?_, ?_, ?_⟩
  · exact List.mem_dedup.mpr (List.mem_map_of_mem keyOf hm)
  · exact List.mem_filter.mpr ⟨hm, by simp⟩
  · intro k _ hmk
    exact (of_decide_eq_true (List.mem_filter.mp hmk).2).symm
  · intro h
    simp [keyOf, h]

/-- A merged row whose event has null datetimes (null year). -/
def mRowW : MergedRow := ⟨⟨eventA, none, none⟩, none⟩

/-- A one-row merged table around `mRowW`. -/
def rowsW : List MergedRow := [mRowW]

/-- Witness for `grouping_partitions` on a concrete one-row merged
table. -/
theorem grouping_partitions_witness :
    ((groupKeys rowsW).map (fun k => (groupRows rowsW k).length)).sum
      = rowsW.length :=
  (grouping_partitions rowsW mRowW (by decide)).1

end SsoPipeline

namespace SsoPipeline

/-- Appending an element already present leaves the deduplicated length
unchanged. -/
lemma dedup_length_append_mem {α : Type} [DecidableEq α] {l : List α} {a : α}
    (h : a ∈ l) : ((l ++ [a]).dedup).length = (l.dedup).length := by
  have hp : List.Perm ((l ++ [a]).dedup) l.dedup := by
    rw [List.perm_ext_iff_of_nodup (List.nodup_dedup _) (List.nodup_dedup _)]
    intro x
    simp only [List.mem_dedup, List.mem_append, List.mem_singleton]
    constructor
    · rintro (hx | rfl)
      · exact hx
      · exact h
    · exact fun hx => Or.inl hx
  exact hp.length_eq

/-- C7: each summary row's `sso_event_count` is the number of distinct
non-null event keys of its group — it is the length of a duplicate-free
list containing exactly the non-null `sewer_overflow_bypass_event_key`
values occurring in the group, and appending to a group another row
carrying an event key the group already holds leaves the count
unchanged (a key occurring in two or more rows contributes exactly 1). -/
theorem distinct_event_count (rows : List MergedRow) (k : GroupKey)
    (hk : k ∈ groupKeys rows) (g : List MergedRow) (m : MergedRow)
    (hm : m ∈ g) :
    mkSummary k (groupRows rows k) ∈ summarize rows ∧
    (mkSummary k (groupRows rows k)).sso_event_count
        = evCount (groupRows rows k) ∧
    (((groupRows rows k).map
        (fun m2 => m2.corr.row.sewer_overflow_bypass_event_key)).filter
          nonNull).dedup.Nodup ∧
    (∀ c, c ∈ (((groupRows rows k).map
        (fun m2 => m2.corr.row.sewer_overflow_bypass_event_key)).filter
          nonNull).dedup
      ↔ (nonNull c = true ∧ ∃ m2, m2 ∈ groupRows rows k ∧
          m2.corr.row.sewer_overflow_bypass_event_key = c)) ∧
    evCount (g ++ [m]) = evCount g := by
  refine ⟨List.mem_map_of_mem _ hk, rfl, List.nodup_dedup _, ?_, ?_⟩
  · intro c
    simp only [List.mem_dedup, List.mem_filter, List.mem_map]
    constructor
    · rintro ⟨⟨m2, hm2, rfl⟩, hnn⟩
      exact ⟨hnn, m2, hm2, rfl⟩
    · rintro ⟨hnn, m2, hm2, rfl⟩
      exact ⟨⟨m2, hm2, rfl⟩, hnn⟩
  · rw [evCount, evCount, List.map_append, List.filter_append]
    by_cases hc : nonNull m.corr.row.sewer_overflow_bypass_event_key = true
    · rw [show (List.map
          (fun m2 => m2.corr.row.sewer_overflow_bypass_event_key) [m]).filter
            nonNull = [m.corr.row.sewer_overflow_bypass_event_key] from by
          simp [hc]]
      exact dedup_length_append_mem
        (List.mem_filter.mpr ⟨List.mem_map_of_mem _ hm, hc⟩)
    · rw [show (List.map
          (fun m2 => m2.corr.row.sewer_overflow_bypass_event_key) [m]).filter
            nonNull = [] from by simp [hc], List.append_nil]

/-- Witness for `distinct_event_count` on a concrete one-row group:
duplicating the row leaves the distinct-event count at 1. -/
theorem distinct_event_count_witness :
    evCount (rowsW ++ [mRowW]) = evCount rowsW :=
  (distinct_event_count rowsW (keyOf mRowW) (by decide) rowsW mRowW
    (by decide)).2.2.2.2

end SsoPipeline

namespace SsoPipeline

/-- A merged row whose event reports a parseable volume of 1000. -/
def mVol1 : MergedRow :=
  ⟨⟨⟨Cell.str "A", Cell.str "B", Cell.str "E1", Cell.null, Cell.null,
     Cell.str "1000", Cell.null, Cell.null⟩, none, none⟩, none⟩

/-- A merged row whose event has a null (missing) volume. -/
def mVol2 : MergedRow :=
  ⟨⟨⟨Cell.str "A", Cell.str "B", Cell.str "E2", Cell.null, Cell.null,
     Cell.null, Cell.null, Cell.null⟩, none, none⟩, none⟩

/-- A merged row whose event reports a parseable volume of 2000. -/
def mVol3 : MergedRow :=
  ⟨⟨⟨Cell.str "A", Cell.str "B", Cell.str "E3", Cell.null, Cell.null,
     Cell.str "2000", Cell.null, Cell.null⟩, none, none⟩, none⟩

/-- A group with parsed volumes [1000, null, 2000]. -/
def volDemoGroup : List MergedRow := [mVol1, mVol2, mVol3]

/-- C8: each summary row's `sso_total_volume_gal` is the null-skipping
sum of the group's successfully parsed discharge volumes — appending a
row whose volume fails to parse leaves the sum unchanged (nulls
contribute 0 rather than propagating), and the group with volumes
[1000, null, 2000] sums to 3000, not null. -/
theorem null_safe_volume_sum (rows : List MergedRow) (k : GroupKey)
    (hk : k ∈ groupKeys rows) (g : List MergedRow) (m : MergedRow)
    (hv : toNumeric
        m.corr.row.sewer_overflow_bypass_discharge_volume_gallons = none) :
    mkSummary k (groupRows rows k) ∈ summarize rows ∧
    (mkSummary k (groupRows rows k)).sso_total_volume_gal
        = ((groupRows rows k).filterMap (fun m2 => toNumeric
            m2.corr.row.sewer_overflow_bypass_discharge_volume_gallons)).sum ∧
    sumVol (g ++ [m]) = sumVol g ∧
    sumVol volDemoGroup = 3000 := by
  refine ⟨List.mem_map_of_mem _ hk, rfl, ?_, ?_⟩
  · rw [sumVol, sumVol, List.filterMap_append]
    simp [hv]
  · have h1 : toNumeric
        mVol1.corr.row.sewer_overflow_bypass_discharge_volume_gallons
        = some 1000 := by decide
    have h2 : toNumeric
        mVol2.corr.row.sewer_overflow_bypass_discharge_volume_gallons
        = none := by decide
    have h3 : toNumeric
        mVol3.corr.row.sewer_overflow_bypass_discharge_volume_gallons
        = some 2000 := by decide
    rw [sumVol, show volDemoGroup = [mVol1, mVol2, mVol3] from rfl]
    simp [h1, h2, h3]
    norm_num

/-- Witness for `null_safe_volume_sum` on the concrete demo group:
appending the null-volume row leaves the total unchanged. -/
theorem null_safe_volume_sum_witness :
    sumVol (volDemoGroup ++ [mVol2]) = sumVol volDemoGroup :=
  (null_safe_volume_sum volDemoGroup (keyOf mVol1) (by decide)
    volDemoGroup mVol2 (by decide)).2.2.1

end SsoPipeline

namespace SsoPipeline

/-- Every row of the left join carries a corrected event row drawn from
the corrected events list. -/
lemma mem_leftJoin_corr {ps : List PermitRow} {es : List CorrRow}
    {m : MergedRow} (h : m ∈ leftJoin ps es) : m.corr ∈ es := by
  rw [leftJoin, List.mem_flatMap] at h
  obtain ⟨e, he, hm⟩ := h
  rcases hms : ps.filter
      (fun p => decide (permitKeyPair p = eventKeyPair e.row)) with _ | ⟨x, xs⟩
  · rw [hms] at hm
    simp only [List.mem_singleton] at hm
    rw [hm]
    exact he
  · rw [hms] at hm
    simp only [List.mem_map] at hm
    obtain ⟨p, _, hp⟩ := hm
    rw [← hp]
    exact he

/-- A corrected event row's coordinates come from `correctCoords` on
the parsed column values. -/
lemma corr_lat_of_mem {E : SsoTable} {c : CorrRow}
    (h : c ∈ correctedEvents E) :
    c.lat = (correctCoords (parsedLat E c.row) (parsedLon E c.row)).1 ∧
    c.lon = (correctCoords (parsedLat E c.row) (parsedLon E c.row)).2 := by
  rw [correctedEvents, List.mem_map] at h
  obtain ⟨r, _, hr⟩ := h
  rw [← hr]
  exact ⟨rfl, rfl⟩

/-- A null longitude stays null through both correction rules. -/
lemma correct_lon_none (la : Option ℚ) : (correctCoords la none).2 = none := by
  match la with
  | none => rfl
  | some a => by_cases h : a < 0 <;> simp [correctCoords, ruleA, ruleB, h]

/-- C10: for every pair of input tables, absence of the coordinate
columns is not fatal while absence of the identifier columns is — when
all four identifier columns are present the run succeeds whatever the
coordinate flags, a missing `latitude_measure` (resp.
`longitude_measure`) column leaves every merged row with a null
corrected latitude (resp. longitude) so no correction rule fires, and a
missing `permit_identifier` or `collection_system_identifier` column in
either table makes `merge_sso_with_collection_system` raise an
error. -/
theorem coordinate_column_optional (P : CollTable) (E : SsoTable) :
    (P.hasPermitId = true → E.hasPermitId = true → P.hasCsId = true →
      E.hasCsId = true →
      merge_sso_with_collection_system P E = Except.ok (buildOutputs P E)) ∧
    (E.hasLat = false →
      ∀ m ∈ (buildOutputs P E).sso_events_with_collection_system,
        m.corr.lat = none) ∧
    (E.hasLon = false →
      ∀ m ∈ (buildOutputs P E).sso_events_with_collection_system,
        m.corr.lon = none) ∧
    (P.hasPermitId = false ∨ E.hasPermitId = false ∨ P.hasCsId = false ∨
        E.hasCsId = false →
      merge_sso_with_collection_system P E
        = Except.error "KeyError: missing identifier column") := by
  refine ⟨?_, ?_, ?_, ?_⟩
  · intro hp he hpc hec
    rw [merge_sso_with_collection_system, hp, he, hpc, hec]
    rfl
  · intro hlat m hm
    have hc := mem_leftJoin_corr hm
    rw [(corr_lat_of_mem hc).1, parsedLat, hlat]
    rfl
  · intro hlon m hm
    have hc := mem_leftJoin_corr hm
    rw [(corr_lat_of_mem hc).2, parsedLon, hlon]
    exact correct_lon_none _
  · intro h
    rcases h with h | h | h | h <;>
      rw [merge_sso_with_collection_system, h] <;> simp

/-- An events table with both coordinate columns absent. -/
def eNoCoords : SsoTable := ⟨true, true, false, false, [eventA]⟩

/-- An events table whose `collection_system_identifier` column is
absent. -/
def eNoCs : SsoTable := ⟨true, false, true, true, [eventA]⟩

/-- Witness for `coordinate_column_optional`: a coordinate-free events
table still merges successfully with all-null corrected coordinates,
while an events table without its `collection_system_identifier` column
raises. -/
theorem coordinate_column_optional_witness :
    merge_sso_with_collection_system pTableOne eNoCoords
        = Except.ok (buildOutputs pTableOne eNoCoords) ∧
    (∀ m ∈ (buildOutputs pTableOne eNoCoords).sso_events_with_collection_system,
        m.corr.lat = none) ∧
    (∀ m ∈ (buildOutputs pTableOne eNoCoords).sso_events_with_collection_system,
        m.corr.lon = none) ∧
    merge_sso_with_collection_system pTableOne eNoCs
        = Except.error "KeyError: missing identifier column" :=
  ⟨(coordinate_column_optional pTableOne eNoCoords).1 rfl rfl rfl rfl,
   (coordinate_column_optional pTableOne eNoCoords).2.1 rfl,
   (coordinate_column_optional pTableOne eNoCoords).2.2.1 rfl,
   (coordinate_column_optional pTableOne eNoCs).2.2.2
     (Or.inr (Or.inr (Or.inr rfl)))⟩

end SsoPipeline
